import Mathlib

/-!
Verification of the session run-loop and iteration-health engine of the
`ferris_wiggum` repository (packages/ralph).  The Rust source is shallowly
embedded: machine integers (`u32`) are modelled as `Nat` with explicit
wrapping `% 2^32` where the source's `+=` may overflow (release-mode
wrapping semantics), `HashMap` is modelled as an association list (lookup
and insert are the only operations the source performs), `SystemTime` is
modelled as a `Nat` number of seconds threaded explicitly through the
functions that call `SystemTime::now()`, and fallible operations return
`Except`.  The `created_at`/`updated_at` bookkeeping timestamps of a
session, and the `ActivityEntry.health` display field (which the source
computes with `f32` floating-point arithmetic), play no role in any
property below and are not modelled.
-/

namespace Ralph

/-- `2^32`, the wrap-around modulus of Rust `u32` arithmetic. -/
def U32MOD : Nat := 4294967296

/-- Wrapping `u32` arithmetic: reduce a `Nat` modulo `2^32`. -/
def wrap32 (n : Nat) : Nat := n % U32MOD

/-- `TokenUsage` from types.rs: the five `u32` token counters. -/
structure TokenUsage where
  total : Nat
  read : Nat
  write : Nat
  assistant : Nat
  shell : Nat
deriving DecidableEq, Repr

/-- `TokenUsage::default()` (derived `Default`): all counters zero. -/
def TokenUsage.default : TokenUsage :=
  { total := 0, read := 0, write := 0, assistant := 0, shell := 0 }

/-- `Signal` from types.rs. -/
inductive Signal where
  | Warn : Signal
  | Rotate : Signal
  | Gutter : String → Signal
  | Complete : Signal
  | StoryComplete : String → Signal
deriving DecidableEq, Repr

/-- `ActivityKind` from types.rs.  `lines`/`bytes` are `u32`, `exit_code`
is `i32` (modelled as `Int`). -/
inductive ActivityKind where
  | Read : String → Nat → Nat → ActivityKind
  | Write : String → Nat → Nat → ActivityKind
  | Shell : String → Int → ActivityKind
  | TokenUpdate : TokenUsage → ActivityKind
  | Signal : Signal → ActivityKind
  | Error : String → ActivityKind
deriving DecidableEq, Repr

/-- Association-list lookup, modelling `HashMap::get` /
`HashMap::entry(..).or_insert(..)` reads. -/
def lookupA {α : Type} : List (String × α) → String → Option α
  | [], _ => none
  | (k, v) :: rest, key => if k = key then some v else lookupA rest key

/-- Association-list insert-or-replace, modelling a `HashMap` write back
to an entry. -/
def insertA {α : Type} : List (String × α) → String → α → List (String × α)
  | [], key, v => [(key, v)]
  | (k, w) :: rest, key, v =>
      if k = key then (key, v) :: rest else (k, w) :: insertA rest key v

/-- `StreamParser` from parser.rs: token counters, the per-command
failure map, the per-path write-timestamp map, and the two gutter
thresholds. -/
structure StreamParser where
  iteration : Nat
  token_usage : TokenUsage
  warn_threshold : Nat
  rotate_threshold : Nat
  command_failures : List (String × Nat)
  file_writes : List (String × List Nat)
  gutter_fail_count : Nat
  gutter_thrash_count : Nat
deriving DecidableEq, Repr

/-- `StreamParser::new`: empty gutter maps, `gutter_fail_count = 3`,
`gutter_thrash_count = 5`. -/
def StreamParser.new (iteration : Nat) (token_usage : TokenUsage)
    (warn_threshold : Nat) (rotate_threshold : Nat) : StreamParser :=
  { iteration := iteration
    token_usage := token_usage
    warn_threshold := warn_threshold
    rotate_threshold := rotate_threshold
    command_failures := []
    file_writes := []
    gutter_fail_count := 3
    gutter_thrash_count := 5 }

/-- The token-counter update at the top of `parse_activity` (parser.rs
lines 38-54): Read/Write add their byte count to the matching sub-counter
and to `total`; Shell adds the fixed estimate 100 to `shell` and `total`;
the other kinds leave the counters untouched.  Each `+=` is `u32`
wrapping. -/
def tokenStep (tu : TokenUsage) : ActivityKind → TokenUsage
  | .Read _ _ bytes =>
      { tu with read := wrap32 (tu.read + bytes), total := wrap32 (tu.total + bytes) }
  | .Write _ _ bytes =>
      { tu with write := wrap32 (tu.write + bytes), total := wrap32 (tu.total + bytes) }
  | .Shell _ _ =>
      { tu with shell := wrap32 (tu.shell + 100), total := wrap32 (tu.total + 100) }
  | _ => tu

/-- The token-threshold fallback at the bottom of `parse_activity`
(parser.rs lines 98-105): run only when no gutter signal fired; Rotate
at `total >= rotate_threshold`, else Warn at `total >= warn_threshold`. -/
def thresholdSignal (tu : TokenUsage) (warn rot : Nat) : Option Signal :=
  if tu.total ≥ rot then some Signal.Rotate
  else if tu.total ≥ warn then some Signal.Warn
  else none

/-- `if signal.is_none() { ..threshold checks.. }`: a gutter signal, when
present, pre-empts the threshold signal. -/
def orThreshold (g : Option Signal) (tu : TokenUsage) (warn rot : Nat) : Option Signal :=
  match g with
  | some s => some s
  | none => thresholdSignal tu warn rot

/-- `StreamParser::parse_activity` (parser.rs lines 37-119).  `now` is
the value of `SystemTime::now()` during the call, in whole seconds; the
returned `ActivityEntry` is not modelled (its fields `timestamp`,
`iteration` and `kind` are the arguments themselves, and its `health`
field is a `f32`-derived display value no property depends on), so the
model returns the updated parser state and the optional signal. -/
def parse_activity (p : StreamParser) (now : Nat) (kind : ActivityKind) :
    StreamParser × Option Signal :=
  let tu := tokenStep p.token_usage kind
  match kind with
  | .Shell command exit_code =>
      if exit_code ≠ 0 then
        let c := wrap32 ((lookupA p.command_failures command).getD 0 + 1)
        let g : Option Signal :=
          if c ≥ p.gutter_fail_count then
            some (Signal.Gutter
              ("Command failed " ++ toString c ++ " times: " ++ command))
          else none
        ({ p with token_usage := tu,
                  command_failures := insertA p.command_failures command c },
         orThreshold g tu p.warn_threshold p.rotate_threshold)
      else
        ({ p with token_usage := tu },
         orThreshold none tu p.warn_threshold p.rotate_threshold)
  | .Write path _ _ =>
      let ws := ((lookupA p.file_writes path).getD []) ++ [now]
      let ws := ws.filter (fun t => now - 600 < t)
      let g : Option Signal :=
        if ws.length ≥ p.gutter_thrash_count then
          some (Signal.Gutter
            ("File thrashing detected: " ++ path ++ " (" ++
              toString ws.length ++ " writes in 10min)"))
        else none
      ({ p with token_usage := tu, file_writes := insertA p.file_writes path ws },
       orThreshold g tu p.warn_threshold p.rotate_threshold)
  | _ =>
      ({ p with token_usage := tu },
       orThreshold none tu p.warn_threshold p.rotate_threshold)

/-- `StreamParser::reset_tokens` (parser.rs lines 125-127). -/
def reset_tokens (p : StreamParser) : StreamParser :=
  { p with token_usage := TokenUsage.default }

/-- Run `parse_activity` over a list of timestamped activities, returning
the final parser state and the per-call signals in order. -/
def parseAll (p : StreamParser) : List (Nat × ActivityKind) →
    StreamParser × List (Option Signal)
  | [] => (p, [])
  | (now, kind) :: rest =>
      let r := parse_activity p now kind
      let rr := parseAll r.1 rest
      (rr.1, r.2 :: rr.2)

example :
    (parse_activity (StreamParser.new 0 TokenUsage.default 70000 80000) 5
      (ActivityKind.Read "test.rs" 100 5000)).2 = none := by decide

example :
    (parse_activity (StreamParser.new 0 TokenUsage.default 70000 80000) 5
      (ActivityKind.Read "test.rs" 1000 70000)).2 = some Signal.Warn := by decide

example :
    (parse_activity (StreamParser.new 0 TokenUsage.default 70000 80000) 5
      (ActivityKind.Read "test.rs" 1000 80000)).2 = some Signal.Rotate := by decide

/-- `SessionStatus` from types.rs. -/
inductive SessionStatus where
  | Idle : SessionStatus
  | Running : String → SessionStatus
  | Paused : SessionStatus
  | WaitingForRotation : SessionStatus
  | Gutter : String → SessionStatus
  | Complete : SessionStatus
  | Failed : String → SessionStatus
deriving DecidableEq, Repr

/-- The derived `Debug` rendering of a `SessionStatus`, used in the
`InvalidState` message of `start_session` (quote-escaping inside the
embedded strings, which Rust's `{:?}` would perform, is not modelled). -/
def SessionStatus.debugStr : SessionStatus → String
  | .Idle => "Idle"
  | .Running sid => "Running \x7b story_id: \"" ++ sid ++ "\" \x7d"
  | .Paused => "Paused"
  | .WaitingForRotation => "WaitingForRotation"
  | .Gutter r => "Gutter \x7b reason: \"" ++ r ++ "\" \x7d"
  | .Complete => "Complete"
  | .Failed e => "Failed \x7b error: \"" ++ e ++ "\" \x7d"

/-- `SessionConfig` from types.rs (`max_iterations`, `warn_threshold`,
`rotate_threshold` are `u32`). -/
structure SessionConfig where
  prd_model : String
  execution_model : String
  max_iterations : Nat
  warn_threshold : Nat
  rotate_threshold : Nat
  branch_name : Option String
  open_pr : Bool
deriving DecidableEq, Repr

/-- `Story` from types.rs (`priority` is `u32`). -/
structure Story where
  id : String
  title : String
  description : String
  acceptance_criteria : List String
  priority : Nat
  passes : Bool
  notes : String
deriving DecidableEq, Repr

/-- `Prd` from types.rs. -/
structure Prd where
  project : String
  branch_name : String
  description : String
  stories : List Story
deriving DecidableEq, Repr

/-- `Session` from types.rs.  The `created_at`/`updated_at` `SystemTime`
fields are bookkeeping no claim depends on and are not modelled. -/
structure Session where
  id : String
  project_path : String
  status : SessionStatus
  config : SessionConfig
  prd : Option Prd
  current_iteration : Nat
  token_usage : TokenUsage
deriving DecidableEq, Repr

/-- `RalphError` from types.rs. -/
inductive RalphError where
  | Io : String → RalphError
  | Git : String → RalphError
  | CursorAgent : String → RalphError
  | Parse : String → RalphError
  | SessionNotFound : String → RalphError
  | InvalidState : String → RalphError
deriving DecidableEq, Repr

/-- `IterationResult` from types.rs. -/
inductive IterationResult where
  | StoryComplete : IterationResult
  | Rotate : IterationResult
  | Gutter : String → IterationResult
deriving DecidableEq, Repr

/-- The in-memory session table of `SessionManager`, keyed by id. -/
abbrev Sessions : Type := List (String × Session)

/-- `matches!(status, SessionStatus::Idle | SessionStatus::Paused)` in
`start_session`. -/
def isStartable : SessionStatus → Bool
  | .Idle => true
  | .Paused => true
  | _ => false

/-- `SessionManager::start_session` (session.rs lines 86-133), modelled
over the session table.  The background spawn of the run-loop is a side
effect with no bearing on the returned/stored value; the status written
and returned is `Running { story_id: "initializing" }`, before the loop
picks a real story.  Returns the updated table together with the session
the caller receives. -/
def start_session (sessions : Sessions) (id : String) :
    Except RalphError (Sessions × Session) :=
  match lookupA sessions id with
  | none => Except.error (RalphError.SessionNotFound id)
  | some session =>
      if isStartable session.status then
        match session.prd with
        | none =>
            Except.error (RalphError.InvalidState
              "Cannot start session without a PRD. Please set a PRD first.")
        | some prd =>
            if prd.stories.isEmpty then
              Except.error (RalphError.InvalidState
                "Cannot start session with empty PRD. PRD must contain at least one story.")
            else
              let s := { session with status := SessionStatus.Running "initializing" }
              Except.ok (insertA sessions s.id s, s)
      else
        Except.error (RalphError.InvalidState
          ("Cannot start session in state: " ++ session.status.debugStr))

/-- `SessionManager::pause_session` (session.rs lines 135-141): looks the
session up and unconditionally overwrites its status with `Paused`. -/
def pause_session (sessions : Sessions) (id : String) :
    Except RalphError (Sessions × Session) :=
  match lookupA sessions id with
  | none => Except.error (RalphError.SessionNotFound id)
  | some session =>
      let s := { session with status := SessionStatus.Paused }
      Except.ok (insertA sessions s.id s, s)

/-- `SessionManager::stop_session` (session.rs lines 143-149): looks the
session up and unconditionally overwrites its status with `Idle`. -/
def stop_session (sessions : Sessions) (id : String) :
    Except RalphError (Sessions × Session) :=
  match lookupA sessions id with
  | none => Except.error (RalphError.SessionNotFound id)
  | some session =>
      let s := { session with status := SessionStatus.Idle }
      Except.ok (insertA sessions s.id s, s)

/-- `SessionManager::set_prd` (session.rs lines 151-162): stores the PRD
on the session (the disk write of `prd.json` is an external side effect);
the status is left untouched. -/
def set_prd (sessions : Sessions) (id : String) (prd : Prd) :
    Except RalphError (Sessions × Session) :=
  match lookupA sessions id with
  | none => Except.error (RalphError.SessionNotFound id)
  | some session =>
      let s := { session with prd := some prd }
      Except.ok (insertA sessions s.id s, s)

/-- `Iterator::min_by_key` over stories: the first element attaining the
minimum key (later elements replace the accumulator only when strictly
smaller). -/
def minByKeyFirst (f : Story → Nat) (l : List Story) : Option Story :=
  l.foldl
    (fun acc s =>
      match acc with
      | none => some s
      | some m => if f s < f m then some s else some m)
    none

/-- The next-story selection of `run_loop` (session.rs lines 204-211):
among the PRD's stories with `passes == false`, the one of minimum
`priority`, ties to the earlier story. -/
def selectStory (prd : Option Prd) : Option String :=
  prd.bind fun prd =>
    (minByKeyFirst (fun s => s.priority)
      (prd.stories.filter (fun s => !s.passes))).map (fun s => s.id)

/-- The `saw_complete` flag of `run_iteration` (session.rs lines 335,
364-380): set when some parsed activity produced `Signal::Complete`. -/
def sawCompleteOf (sigs : List (Option Signal)) : Bool :=
  sigs.any fun s =>
    match s with
    | some Signal.Complete => true
    | _ => false

/-- The `gutter_signal` slot of `run_iteration` (session.rs lines 336,
369-371): each observed `Signal::Gutter` overwrites it, so it ends as the
last gutter reason, if any. -/
def gutterOf (sigs : List (Option Signal)) : Option String :=
  sigs.foldl
    (fun acc s =>
      match s with
      | some (Signal.Gutter r) => some r
      | _ => acc)
    none

/-- The `StreamParser` that `run_iteration` constructs (session.rs lines
327-332). -/
def initParser (sess : Session) : StreamParser :=
  StreamParser.new sess.current_iteration sess.token_usage
    sess.config.warn_threshold sess.config.rotate_threshold

/-- `SessionManager::run_iteration` (session.rs lines 314-410), on its
success path (the runner completed with exit status zero; runner errors
propagate out as `Except.error` and are outside all claims).  `events`
are the timestamped activities the subprocess stream produced, in order.
Returns the iteration result and the final token usage written back to
`session.token_usage` (the write-back at line 386 happens before the
result checks, so it occurs in every case, including Gutter). -/
def run_iteration (sess : Session) (events : List (Nat × ActivityKind)) :
    IterationResult × TokenUsage :=
  let r := parseAll (initParser sess) events
  let usage := r.1.token_usage
  match gutterOf r.2 with
  | some reason => (IterationResult.Gutter reason, usage)
  | none =>
      if usage.total ≥ sess.config.rotate_threshold then
        (IterationResult.Rotate, usage)
      else if sawCompleteOf r.2 then
        (IterationResult.StoryComplete, usage)
      else
        (IterationResult.StoryComplete, usage)

/-- `prd.stories.iter_mut().find(|s| s.id == story_id)` followed by
`s.passes = true`: only the first story with the given id is marked. -/
def markPassed : List Story → String → List Story
  | [], _ => []
  | s :: rest, sid =>
      if s.id = sid then { s with passes := true } :: rest
      else s :: markPassed rest sid

/-- The `IterationResult::StoryComplete` arm of `run_loop` (session.rs
lines 244-268): mark the story passed and increment `current_iteration`
(`u32` wrapping). -/
def storyCompleteUpdate (s : Session) (sid : String) : Session :=
  { s with
    prd := s.prd.map fun prd => { prd with stories := markPassed prd.stories sid }
    current_iteration := wrap32 (s.current_iteration + 1) }

/-- The `IterationResult::Rotate` arm of `run_loop` (session.rs lines
269-281): increment `current_iteration` (`u32` wrapping) and reset
`token_usage` to all-zero. -/
def rotateUpdate (s : Session) : Session :=
  { s with
    current_iteration := wrap32 (s.current_iteration + 1)
    token_usage := TokenUsage.default }

/-- The pause/stop poll at the top of each `run_loop` iteration
(session.rs lines 198-201). -/
def isPausedOrIdle : SessionStatus → Bool
  | .Paused => true
  | .Idle => true
  | _ => false

/-- One oracle entry per loop iteration: the status the top-of-loop poll
reads back from the table, and the activity events the iteration's
subprocess stream produces. -/
abbrev LoopOracle : Type := List (SessionStatus × List (Nat × ActivityKind))

/-- `SessionManager::run_loop` (session.rs lines 195-312), driven by an
oracle supplying the external inputs of each iteration.  Returns the
final session value together with the `Signal`s of the `ActivityEntry`s
the loop itself broadcasts (`Complete`, `StoryComplete`, `Rotate`,
`Gutter`; the per-activity entries forwarded from inside
`run_iteration`, whose kinds mirror the subprocess stream, are not
included).  When the oracle is exhausted while the loop would continue,
the model stops with the session as it stands (a truncated trace). -/
def run_loop (sess : Session) : LoopOracle → Session × List Signal
  | [] =>
      if sess.current_iteration < sess.config.max_iterations then (sess, [])
      else ({ sess with status := SessionStatus.Failed "Max iterations reached" }, [])
  | (cur, events) :: rest =>
      if sess.current_iteration < sess.config.max_iterations then
        if isPausedOrIdle cur then (sess, [])
        else
          match selectStory sess.prd with
          | none => ({ sess with status := SessionStatus.Complete }, [Signal.Complete])
          | some story_id =>
              let s1 := { sess with status := SessionStatus.Running story_id }
              let r := run_iteration s1 events
              let s2 := { s1 with token_usage := r.2 }
              match r.1 with
              | IterationResult.StoryComplete =>
                  let rr := run_loop (storyCompleteUpdate s2 story_id) rest
                  (rr.1, Signal.StoryComplete story_id :: rr.2)
              | IterationResult.Rotate =>
                  let rr := run_loop (rotateUpdate s2) rest
                  (rr.1, Signal.Rotate :: rr.2)
              | IterationResult.Gutter reason =>
                  ({ s2 with status := SessionStatus.Gutter reason },
                   [Signal.Gutter reason])
      else ({ sess with status := SessionStatus.Failed "Max iterations reached" }, [])

/-! ### Helper lemmas -/

theorem wrap32_lt (n : Nat) : wrap32 n < U32MOD := by
  have : 0 < U32MOD := by decide
  exact Nat.mod_lt _ this

theorem wrap32_eq_of_lt {n : Nat} (h : n < U32MOD) : wrap32 n = n :=
  Nat.mod_eq_of_lt h

theorem wrap32_add_left (a b : Nat) : wrap32 (wrap32 a + b) = wrap32 (a + b) :=
  Nat.mod_add_mod a U32MOD b

theorem lookupA_insertA_self {α : Type} (m : List (String × α)) (k : String) (v : α) :
    lookupA (insertA m k v) k = some v := by
  induction m with
  | nil => simp [insertA, lookupA]
  | cons hd tl ih =>
      obtain ⟨k', v'⟩ := hd
      by_cases h : k' = k
      · simp [insertA, lookupA, h]
      · simp [insertA, lookupA, h, ih]

/-- The token contribution of one activity kind (parser.rs lines 38-54):
Read/Write contribute their byte count, Shell the fixed estimate 100,
the other kinds nothing. -/
def contribOf : ActivityKind → Nat
  | .Read _ _ bytes => bytes
  | .Write _ _ bytes => bytes
  | .Shell _ _ => 100
  | _ => 0

/-- Total token contribution of a timestamped activity sequence. -/
def contribAll (events : List (Nat × ActivityKind)) : Nat :=
  events.foldr (fun e acc => contribOf e.2 + acc) 0

/-- Kinds whose `parse_activity` arm leaves the token counters untouched. -/
def isPassiveKind : ActivityKind → Bool
  | .TokenUpdate _ => true
  | .Signal _ => true
  | .Error _ => true
  | _ => false

theorem parse_activity_fst_token_total (p : StreamParser) (now : Nat)
    (kind : ActivityKind) :
    ((parse_activity p now kind).1).token_usage.total
      = wrap32 (p.token_usage.total + contribOf kind)
      ∨ (((parse_activity p now kind).1).token_usage.total = p.token_usage.total
          ∧ contribOf kind = 0) := by
  cases kind with
  | Read path lines bytes => left; rfl
  | Write path lines bytes => left; rfl
  | Shell cmd ec =>
      left
      by_cases h : ec ≠ 0 <;> simp [parse_activity, tokenStep, contribOf, h]
  | TokenUpdate u => right; exact ⟨rfl, rfl⟩
  | Signal s => right; exact ⟨rfl, rfl⟩
  | Error m => right; exact ⟨rfl, rfl⟩

theorem parseAll_total (events : List (Nat × ActivityKind)) :
    ∀ p : StreamParser, p.token_usage.total < U32MOD →
      ((parseAll p events).1).token_usage.total
        = wrap32 (p.token_usage.total + contribAll events) := by
  induction events with
  | nil =>
      intro p hp
      simpa [parseAll, contribAll] using (wrap32_eq_of_lt hp).symm
  | cons e rest ih =>
      intro p hp
      obtain ⟨now, kind⟩ := e
      have hstep := parse_activity_fst_token_total p now kind
      have hlt : ((parse_activity p now kind).1).token_usage.total < U32MOD := by
        rcases hstep with h | ⟨h, _⟩
        · rw [h]; exact wrap32_lt _
        · rw [h]; exact hp
      have := ih (parse_activity p now kind).1 hlt
      simp only [parseAll]
      rw [this]
      rcases hstep with h | ⟨h, hz⟩
      · rw [h, wrap32_add_left]
        have : p.token_usage.total + contribOf kind + contribAll rest
            = p.token_usage.total + contribAll ((now, kind) :: rest) := by
          simp [contribAll]; ring
        rw [this]
      · rw [h]
        have : p.token_usage.total + contribAll ((now, kind) :: rest)
            = p.token_usage.total + contribAll rest := by
          simp [contribAll, hz]
        rw [this]

theorem parse_activity_passive (p : StreamParser) (now : Nat)
    (kind : ActivityKind) (h : isPassiveKind kind = true) :
    ((parse_activity p now kind).1).token_usage = p.token_usage := by
  cases kind <;> simp_all [isPassiveKind, parse_activity, tokenStep]

/-- Claim C3 (amended): token accounting.  Starting from all-zero
counters (a fresh construction with zero usage, or the state right after
`reset_tokens`), after any sequence of `parse_activity` calls the `total`
counter equals the sum of the Read byte counts, the Write byte counts and
100 per Shell activity, reduced modulo `2^32` (the counters are wrapping
`u32`s); `TokenUpdate`, `Signal` and `Error` activities leave all token
counters unchanged, and `reset_tokens` zeroes every counter. -/
theorem c3_token_total_sum :
    (∀ (p : StreamParser) (events : List (Nat × ActivityKind)),
        p.token_usage = TokenUsage.default →
        ((parseAll p events).1).token_usage.total = wrap32 (contribAll events)) ∧
    (∀ (p : StreamParser) (now : Nat) (kind : ActivityKind),
        isPassiveKind kind = true →
        ((parse_activity p now kind).1).token_usage = p.token_usage) ∧
    (∀ p : StreamParser, (reset_tokens p).token_usage = TokenUsage.default) := by
  refine ⟨?_, parse_activity_passive, fun p => rfl⟩
  intro p events hp
  have h0 : p.token_usage.total < U32MOD := by rw [hp]; decide
  have := parseAll_total events p h0
  rw [hp] at this
  simpa [TokenUsage.default] using this

/-- Witness for C3 at a concrete run: Read 5000 bytes, a Shell call and a
passive Error entry give total 5100. -/
theorem c3_token_total_sum_witness :
    ((parseAll (StreamParser.new 0 TokenUsage.default 70000 80000)
        [(0, ActivityKind.Read "a.rs" 10 5000),
         (1, ActivityKind.Shell "ls" 0),
         (2, ActivityKind.Error "x")]).1).token_usage.total
      = wrap32 (contribAll
        [(0, ActivityKind.Read "a.rs" 10 5000),
         (1, ActivityKind.Shell "ls" 0),
         (2, ActivityKind.Error "x")])
    ∧ ((parse_activity (StreamParser.new 0 TokenUsage.default 70000 80000) 3
        (ActivityKind.Error "x")).1).token_usage
      = (StreamParser.new 0 TokenUsage.default 70000 80000).token_usage
    ∧ (reset_tokens (StreamParser.new 0 TokenUsage.default 70000 80000)).token_usage
      = TokenUsage.default := by
  exact ⟨c3_token_total_sum.1 _ _ rfl,
         c3_token_total_sum.2.1 _ 3 _ rfl,
         c3_token_total_sum.2.2 _⟩

/-- Counterexample to C3 as literally stated: with wrapping `u32`
counters the total is the contribution sum modulo `2^32`, not the exact
sum — two Reads of `u32::MAX` bytes leave `total = 2^32 - 2`, while the
exact byte sum is `2^33 - 2`. -/
theorem c3_exact_sum_cex :
    ((parseAll (StreamParser.new 0 TokenUsage.default 70000 80000)
        [(0, ActivityKind.Read "a" 0 4294967295),
         (1, ActivityKind.Read "a" 0 4294967295)]).1).token_usage.total
      = 4294967294
    ∧ (4294967294 : Nat) ≠ 4294967295 + 4294967295 := by
  constructor
  · decide
  · decide

/-! ### Shell-failure gutter detection -/

theorem thresholdSignal_not_gutter (tu : TokenUsage) (w r : Nat) (m : String) :
    thresholdSignal tu w r ≠ some (Signal.Gutter m) := by
  unfold thresholdSignal
  by_cases h1 : tu.total ≥ r
  · simp [h1]
  · by_cases h2 : tu.total ≥ w <;> simp [h1, h2]

theorem thresholdSignal_none_of_lt (tu : TokenUsage) (w r : Nat)
    (hw : tu.total < w) (hr : tu.total < r) : thresholdSignal tu w r = none := by
  unfold thresholdSignal
  simp [Nat.not_le_of_lt hw, Nat.not_le_of_lt hr]

theorem parse_shell_fail_failures (p : StreamParser) (now : Nat) (cmd : String)
    (ec : Int) (h : ec ≠ 0) :
    ((parse_activity p now (ActivityKind.Shell cmd ec)).1).command_failures
      = insertA p.command_failures cmd
          (wrap32 ((lookupA p.command_failures cmd).getD 0 + 1)) := by
  simp [parse_activity, h]

theorem parse_shell_usage (p : StreamParser) (now : Nat) (cmd : String) (ec : Int) :
    ((parse_activity p now (ActivityKind.Shell cmd ec)).1).token_usage
      = tokenStep p.token_usage (ActivityKind.Shell cmd ec) := by
  by_cases h : ec ≠ 0 <;> simp [parse_activity, h]

theorem parse_shell_fail_sig_lt (p : StreamParser) (now : Nat) (cmd : String)
    (ec : Int) (h : ec ≠ 0)
    (hlt : wrap32 ((lookupA p.command_failures cmd).getD 0 + 1) < p.gutter_fail_count) :
    (parse_activity p now (ActivityKind.Shell cmd ec)).2
      = thresholdSignal (tokenStep p.token_usage (ActivityKind.Shell cmd ec))
          p.warn_threshold p.rotate_threshold := by
  simp [parse_activity, h, Nat.not_le_of_lt hlt, orThreshold]

theorem parse_shell_fail_sig_ge (p : StreamParser) (now : Nat) (cmd : String)
    (ec : Int) (h : ec ≠ 0)
    (hge : wrap32 ((lookupA p.command_failures cmd).getD 0 + 1) ≥ p.gutter_fail_count) :
    (parse_activity p now (ActivityKind.Shell cmd ec)).2
      = some (Signal.Gutter
          ("Command failed "
            ++ toString (wrap32 ((lookupA p.command_failures cmd).getD 0 + 1))
            ++ " times: " ++ cmd)) := by
  simp [parse_activity, h, hge, orThreshold]

theorem parse_shell_ok_failures (p : StreamParser) (now : Nat) (cmd : String) :
    ((parse_activity p now (ActivityKind.Shell cmd 0)).1).command_failures
      = p.command_failures := by
  simp [parse_activity]

theorem parse_preserves_tuning (p : StreamParser) (now : Nat) (kind : ActivityKind) :
    ((parse_activity p now kind).1).gutter_fail_count = p.gutter_fail_count
    ∧ ((parse_activity p now kind).1).gutter_thrash_count = p.gutter_thrash_count
    ∧ ((parse_activity p now kind).1).warn_threshold = p.warn_threshold
    ∧ ((parse_activity p now kind).1).rotate_threshold = p.rotate_threshold := by
  cases kind with
  | Shell cmd ec => by_cases h : ec ≠ 0 <;> simp [parse_activity, h]
  | _ => simp [parse_activity]

/-- Claim C5: with the default `gutter_fail_count = 3` of a fresh
`StreamParser`, three `parse_activity` calls with Shell activities that
share one command string and all have non-zero exit codes make the third
call return `Some(Gutter(..))` whose message names the command and the
count 3; the first and second calls return no Gutter signal — they are
`None` unless the token thresholds are independently crossed (each Shell
call adds 100 tokens), and in any case only the threshold signals
Warn/Rotate.  `warn ≤ rot` is the spec's standing threshold invariant. -/
theorem c5_third_shell_failure_gutters
    (it : Nat) (tu : TokenUsage) (warn rot : Nat) (cmd : String)
    (c1 c2 c3 : Int) (n1 n2 n3 : Nat) (hw : warn ≤ rot)
    (h1 : c1 ≠ 0) (h2 : c2 ≠ 0) (h3 : c3 ≠ 0) :
    (parse_activity (parse_activity (parse_activity
        (StreamParser.new it tu warn rot) n1 (ActivityKind.Shell cmd c1)).1
        n2 (ActivityKind.Shell cmd c2)).1
        n3 (ActivityKind.Shell cmd c3)).2
      = some (Signal.Gutter ("Command failed 3 times: " ++ cmd))
    ∧ (∀ m, (parse_activity (StreamParser.new it tu warn rot) n1
        (ActivityKind.Shell cmd c1)).2 ≠ some (Signal.Gutter m))
    ∧ (∀ m, (parse_activity (parse_activity (StreamParser.new it tu warn rot) n1
        (ActivityKind.Shell cmd c1)).1 n2 (ActivityKind.Shell cmd c2)).2
        ≠ some (Signal.Gutter m))
    ∧ (wrap32 (tu.total + 100) < warn →
        (parse_activity (StreamParser.new it tu warn rot) n1
          (ActivityKind.Shell cmd c1)).2 = none)
    ∧ (wrap32 (tu.total + 200) < warn →
        (parse_activity (parse_activity (StreamParser.new it tu warn rot) n1
          (ActivityKind.Shell cmd c1)).1 n2 (ActivityKind.Shell cmd c2)).2 = none) := by
  have f1 : ((parse_activity (StreamParser.new it tu warn rot) n1
      (ActivityKind.Shell cmd c1)).1).command_failures = [(cmd, 1)] := by
    rw [parse_shell_fail_failures _ _ _ _ h1]
    norm_num [StreamParser.new, lookupA, insertA, wrap32, U32MOD]
  have tun1 := parse_preserves_tuning (StreamParser.new it tu warn rot) n1
      (ActivityKind.Shell cmd c1)
  have u1 := parse_shell_usage (StreamParser.new it tu warn rot) n1 cmd c1
  have hlt1 : wrap32 (((lookupA (StreamParser.new it tu warn rot).command_failures
      cmd).getD 0) + 1) < (StreamParser.new it tu warn rot).gutter_fail_count := by
    norm_num [StreamParser.new, lookupA, wrap32, U32MOD]
  have sig1 := parse_shell_fail_sig_lt (StreamParser.new it tu warn rot) n1 cmd c1 h1 hlt1
  have f2 : ((parse_activity (parse_activity (StreamParser.new it tu warn rot) n1
      (ActivityKind.Shell cmd c1)).1 n2 (ActivityKind.Shell cmd c2)).1).command_failures
      = [(cmd, 2)] := by
    rw [parse_shell_fail_failures _ _ _ _ h2, f1]
    norm_num [lookupA, insertA, wrap32, U32MOD]
  have hlt2 : wrap32 (((lookupA ((parse_activity (StreamParser.new it tu warn rot) n1
      (ActivityKind.Shell cmd c1)).1).command_failures cmd).getD 0) + 1)
      < ((parse_activity (StreamParser.new it tu warn rot) n1
          (ActivityKind.Shell cmd c1)).1).gutter_fail_count := by
    rw [f1, tun1.1]
    norm_num [StreamParser.new, lookupA, wrap32, U32MOD]
  have sig2 := parse_shell_fail_sig_lt _ n2 cmd c2 h2 hlt2
  have tun2 := parse_preserves_tuning (parse_activity (StreamParser.new it tu warn rot)
      n1 (ActivityKind.Shell cmd c1)).1 n2 (ActivityKind.Shell cmd c2)
  have u2 := parse_shell_usage (parse_activity (StreamParser.new it tu warn rot) n1
      (ActivityKind.Shell cmd c1)).1 n2 cmd c2
  have hge3 : wrap32 (((lookupA ((parse_activity (parse_activity
      (StreamParser.new it tu warn rot) n1 (ActivityKind.Shell cmd c1)).1 n2
      (ActivityKind.Shell cmd c2)).1).command_failures cmd).getD 0) + 1)
      ≥ ((parse_activity (parse_activity (StreamParser.new it tu warn rot) n1
          (ActivityKind.Shell cmd c1)).1 n2
          (ActivityKind.Shell cmd c2)).1).gutter_fail_count := by
    rw [f2, tun2.1, tun1.1]
    norm_num [StreamParser.new, lookupA, wrap32, U32MOD]
  have hval3 : wrap32 (((lookupA ((parse_activity (parse_activity
      (StreamParser.new it tu warn rot) n1 (ActivityKind.Shell cmd c1)).1 n2
      (ActivityKind.Shell cmd c2)).1).command_failures cmd).getD 0) + 1) = 3 := by
    rw [f2]
    norm_num [lookupA, wrap32, U32MOD]
  have sig3 := parse_shell_fail_sig_ge _ n3 cmd c3 h3 hge3
  rw [hval3] at sig3
  refine ⟨?_, ?_, ?_, ?_, ?_⟩
  · rw [sig3]
    have hmsg : ("Command failed " ++ toString (3 : Nat) ++ " times: " : String)
        = "Command failed 3 times: " := by decide
    rw [hmsg]
  · intro m
    rw [sig1]
    exact thresholdSignal_not_gutter _ _ _ m
  · intro m
    rw [sig2]
    exact thresholdSignal_not_gutter _ _ _ m
  · intro hbound
    rw [sig1]
    refine thresholdSignal_none_of_lt _ _ _ ?_ ?_
    · exact hbound
    · exact Nat.lt_of_lt_of_le hbound hw
  · intro hbound
    rw [sig2, u1, tun1.2.2.1, tun1.2.2.2]
    have htot : (tokenStep (tokenStep (StreamParser.new it tu warn rot).token_usage
        (ActivityKind.Shell cmd c1)) (ActivityKind.Shell cmd c2)).total
        = wrap32 (tu.total + 200) := by
      show wrap32 (wrap32 (tu.total + 100) + 100) = wrap32 (tu.total + 200)
      rw [wrap32_add_left]
    refine thresholdSignal_none_of_lt _ _ _ ?_ ?_
    · rw [htot]; exact hbound
    · rw [htot]; exact Nat.lt_of_lt_of_le hbound hw

/-- Witness for C5: command "npm test" failing three times with exit code
1, from a fresh parser with the default 70k/80k thresholds. -/
theorem c5_third_shell_failure_gutters_witness :
    (parse_activity (parse_activity (parse_activity
        (StreamParser.new 0 TokenUsage.default 70000 80000) 0
        (ActivityKind.Shell "npm test" 1)).1
        1 (ActivityKind.Shell "npm test" 1)).1
        2 (ActivityKind.Shell "npm test" 1)).2
      = some (Signal.Gutter ("Command failed 3 times: " ++ "npm test")) := by
  exact (c5_third_shell_failure_gutters 0 TokenUsage.default 70000 80000 "npm test"
    1 1 1 0 1 2 (by decide) (by decide) (by decide) (by decide)).1

/-- Counterexample to C6 as stated: a Shell success (exit code 0) does
NOT reset the command's failure counter (parser.rs only touches
`command_failures` in the `exit_code != 0` arm), so the sequence fail,
fail, success, fail still emits a Gutter signal on its fourth call —
the claim says it must not. -/
theorem c6_success_resets_cex :
    (parse_activity (parse_activity (parse_activity (parse_activity
        (StreamParser.new 0 TokenUsage.default 70000 80000) 0
        (ActivityKind.Shell "make" 1)).1
        1 (ActivityKind.Shell "make" 1)).1
        2 (ActivityKind.Shell "make" 0)).1
        3 (ActivityKind.Shell "make" 1)).2
      = some (Signal.Gutter "Command failed 3 times: make") := by decide

/-- Claim C6 (amended): the per-command failure counter counts TOTAL
failures of that command, not consecutive ones — a `parse_activity` call
with a Shell activity whose exit code is 0 leaves `command_failures`
completely unchanged, so two failures of a command, a success of the same
command, and a third failure still reach the default `fail_count = 3`
and emit the Gutter signal on the third failure. -/
theorem c6_failure_counter_not_reset
    (it : Nat) (tu : TokenUsage) (warn rot : Nat) (cmd : String)
    (a b d : Int) (n1 n2 n3 n4 : Nat)
    (ha : a ≠ 0) (hb : b ≠ 0) (hd : d ≠ 0) :
    (∀ (p : StreamParser) (now : Nat) (c : String),
        ((parse_activity p now (ActivityKind.Shell c 0)).1).command_failures
          = p.command_failures) ∧
    (parse_activity (parse_activity (parse_activity (parse_activity
        (StreamParser.new it tu warn rot) n1 (ActivityKind.Shell cmd a)).1
        n2 (ActivityKind.Shell cmd b)).1
        n3 (ActivityKind.Shell cmd 0)).1
        n4 (ActivityKind.Shell cmd d)).2
      = some (Signal.Gutter ("Command failed 3 times: " ++ cmd)) := by
  refine ⟨parse_shell_ok_failures, ?_⟩
  have f1 : ((parse_activity (StreamParser.new it tu warn rot) n1
      (ActivityKind.Shell cmd a)).1).command_failures = [(cmd, 1)] := by
    rw [parse_shell_fail_failures _ _ _ _ ha]
    norm_num [StreamParser.new, lookupA, insertA, wrap32, U32MOD]
  have f2 : ((parse_activity (parse_activity (StreamParser.new it tu warn rot) n1
      (ActivityKind.Shell cmd a)).1 n2 (ActivityKind.Shell cmd b)).1).command_failures
      = [(cmd, 2)] := by
    rw [parse_shell_fail_failures _ _ _ _ hb, f1]
    norm_num [lookupA, insertA, wrap32, U32MOD]
  have f3 : ((parse_activity (parse_activity (parse_activity
      (StreamParser.new it tu warn rot) n1 (ActivityKind.Shell cmd a)).1
      n2 (ActivityKind.Shell cmd b)).1 n3
      (ActivityKind.Shell cmd 0)).1).command_failures = [(cmd, 2)] := by
    rw [parse_shell_ok_failures, f2]
  have tun1 := parse_preserves_tuning (StreamParser.new it tu warn rot) n1
      (ActivityKind.Shell cmd a)
  have tun2 := parse_preserves_tuning (parse_activity (StreamParser.new it tu warn rot)
      n1 (ActivityKind.Shell cmd a)).1 n2 (ActivityKind.Shell cmd b)
  have tun3 := parse_preserves_tuning (parse_activity (parse_activity
      (StreamParser.new it tu warn rot) n1 (ActivityKind.Shell cmd a)).1 n2
      (ActivityKind.Shell cmd b)).1 n3 (ActivityKind.Shell cmd 0)
  have hge4 : wrap32 (((lookupA ((parse_activity (parse_activity (parse_activity
      (StreamParser.new it tu warn rot) n1 (ActivityKind.Shell cmd a)).1
      n2 (ActivityKind.Shell cmd b)).1 n3
      (ActivityKind.Shell cmd 0)).1).command_failures cmd).getD 0) + 1)
      ≥ ((parse_activity (parse_activity (parse_activity
          (StreamParser.new it tu warn rot) n1 (ActivityKind.Shell cmd a)).1
          n2 (ActivityKind.Shell cmd b)).1 n3
          (ActivityKind.Shell cmd 0)).1).gutter_fail_count := by
    rw [f3, tun3.1, tun2.1, tun1.1]
    norm_num [StreamParser.new, lookupA, wrap32, U32MOD]
  have hval4 : wrap32 (((lookupA ((parse_activity (parse_activity (parse_activity
      (StreamParser.new it tu warn rot) n1 (ActivityKind.Shell cmd a)).1
      n2 (ActivityKind.Shell cmd b)).1 n3
      (ActivityKind.Shell cmd 0)).1).command_failures cmd).getD 0) + 1) = 3 := by
    rw [f3]
    norm_num [lookupA, wrap32, U32MOD]
  have sig4 := parse_shell_fail_sig_ge _ n4 cmd d hd hge4
  rw [hval4] at sig4
  rw [sig4]
  have hmsg : ("Command failed " ++ toString (3 : Nat) ++ " times: " : String)
      = "Command failed 3 times: " := by decide
  rw [hmsg]

/-- Witness for the amended C6: the same scenario as the counterexample,
driven through the amended theorem. -/
theorem c6_failure_counter_not_reset_witness :
    (parse_activity (parse_activity (parse_activity (parse_activity
        (StreamParser.new 7 TokenUsage.default 70000 80000) 0
        (ActivityKind.Shell "cargo build" 2)).1
        1 (ActivityKind.Shell "cargo build" 2)).1
        2 (ActivityKind.Shell "cargo build" 0)).1
        3 (ActivityKind.Shell "cargo build" 2)).2
      = some (Signal.Gutter ("Command failed 3 times: " ++ "cargo build")) := by
  exact (c6_failure_counter_not_reset 7 TokenUsage.default 70000 80000 "cargo build"
    2 2 2 0 1 2 3 (by decide) (by decide) (by decide)).2

/-! ### Session lifecycle operations -/

/-- `SessionConfig::default()` from types.rs. -/
def SessionConfig.default : SessionConfig :=
  { prd_model := "opus-4.5-thinking"
    execution_model := "opus-4.5-thinking"
    max_iterations := 20
    warn_threshold := 70000
    rotate_threshold := 80000
    branch_name := none
    open_pr := false }

/-- A concrete story used in witnesses. -/
def demoStory : Story :=
  { id := "US-001", title := "t", description := "d", acceptance_criteria := []
    priority := 1, passes := false, notes := "" }

/-- A concrete PRD used in witnesses. -/
def demoPrd : Prd :=
  { project := "p", branch_name := "main", description := "d", stories := [demoStory] }

/-- A concrete session builder used in witnesses and counterexamples. -/
def demoSession (st : SessionStatus) (prd : Option Prd) : Session :=
  { id := "s1", project_path := "/tmp/p", status := st
    config := SessionConfig.default, prd := prd
    current_iteration := 0, token_usage := TokenUsage.default }

/-- Claim C8: `start_session` preconditions.  With the session found in
the table, each failed precondition (status neither Idle nor Paused, no
PRD, or an empty story list) yields an `InvalidState` error; when all
preconditions hold, the session stored into the table and the one
returned are the same value, carrying status
`Running { story_id: "initializing" }` — before the run-loop picks a
real story. -/
theorem c8_start_preconditions (sessions : Sessions) (id : String) (s : Session)
    (hlook : lookupA sessions id = some s) :
    (isStartable s.status = false →
      ∃ m, start_session sessions id = Except.error (RalphError.InvalidState m)) ∧
    (s.prd = none →
      ∃ m, start_session sessions id = Except.error (RalphError.InvalidState m)) ∧
    (∀ prd, s.prd = some prd → prd.stories = [] →
      ∃ m, start_session sessions id = Except.error (RalphError.InvalidState m)) ∧
    (∀ prd, isStartable s.status = true → s.prd = some prd → prd.stories ≠ [] →
      start_session sessions id = Except.ok
        (insertA sessions s.id { s with status := SessionStatus.Running "initializing" },
         { s with status := SessionStatus.Running "initializing" })
      ∧ lookupA (insertA sessions s.id
            { s with status := SessionStatus.Running "initializing" }) s.id
          = some { s with status := SessionStatus.Running "initializing" }) := by
  refine ⟨?_, ?_, ?_, ?_⟩
  · intro hst
    have h : start_session sessions id = Except.error (RalphError.InvalidState
        ("Cannot start session in state: " ++ s.status.debugStr)) := by
      simp [start_session, hlook, hst]
    exact ⟨_, h⟩
  · intro hprd
    by_cases hst : isStartable s.status
    · have h : start_session sessions id = Except.error (RalphError.InvalidState
          "Cannot start session without a PRD. Please set a PRD first.") := by
        simp [start_session, hlook, hst, hprd]
      exact ⟨_, h⟩
    · have h : start_session sessions id = Except.error (RalphError.InvalidState
          ("Cannot start session in state: " ++ s.status.debugStr)) := by
        simp [start_session, hlook, hst]
      exact ⟨_, h⟩
  · intro prd hprd hempty
    by_cases hst : isStartable s.status
    · have h : start_session sessions id = Except.error (RalphError.InvalidState
          "Cannot start session with empty PRD. PRD must contain at least one story.") := by
        simp [start_session, hlook, hst, hprd, List.isEmpty_iff, hempty]
      exact ⟨_, h⟩
    · have h : start_session sessions id = Except.error (RalphError.InvalidState
          ("Cannot start session in state: " ++ s.status.debugStr)) := by
        simp [start_session, hlook, hst]
      exact ⟨_, h⟩
  · intro prd hst hprd hne
    have hemp : prd.stories.isEmpty = false := by
      simpa [List.isEmpty_iff] using hne
    constructor
    · simp [start_session, hlook, hst, hprd, hemp]
    · exact lookupA_insertA_self _ _ _

/-- Witness for C8: starting an Idle session that has a one-story PRD
succeeds with the "initializing" placeholder status, and starting a
PRD-less Idle session fails with `InvalidState`. -/
theorem c8_start_preconditions_witness :
    (start_session [("s1", demoSession SessionStatus.Idle (some demoPrd))] "s1"
      = Except.ok
        (insertA [("s1", demoSession SessionStatus.Idle (some demoPrd))] "s1"
          { demoSession SessionStatus.Idle (some demoPrd) with
              status := SessionStatus.Running "initializing" },
         { demoSession SessionStatus.Idle (some demoPrd) with
             status := SessionStatus.Running "initializing" }))
    ∧ (∃ m, start_session [("s1", demoSession SessionStatus.Idle none)] "s1"
        = Except.error (RalphError.InvalidState m)) := by
  constructor
  · exact ((c8_start_preconditions
      [("s1", demoSession SessionStatus.Idle (some demoPrd))] "s1"
      (demoSession SessionStatus.Idle (some demoPrd)) (by decide)).2.2.2 demoPrd
      (by decide) rfl (by decide)).1
  · exact (c8_start_preconditions
      [("s1", demoSession SessionStatus.Idle none)] "s1"
      (demoSession SessionStatus.Idle none) (by decide)).2.1 rfl

/-- Counterexample to C9 as stated: `pause_session` overwrites the status
of a Complete session with `Paused` — Complete is not terminal under the
exposed operations. -/
theorem c9_terminal_cex :
    pause_session [("s1", demoSession SessionStatus.Complete none)] "s1"
      = Except.ok
        ([("s1", { demoSession SessionStatus.Complete none with
            status := SessionStatus.Paused })],
         { demoSession SessionStatus.Complete none with
            status := SessionStatus.Paused })
    ∧ SessionStatus.Paused ≠ SessionStatus.Complete := by
  constructor
  · rfl
  · decide

/-- Claim C9 (amended): of the exposed operations, only `start_session`
(which fails with `InvalidState`) and `set_prd` leave the status of a
Complete or Failed session unchanged; `pause_session` and `stop_session`
overwrite any found session's status unconditionally — to `Paused`,
respectively `Idle` — so Complete and Failed are NOT terminal states. -/
theorem c9_complete_failed_not_terminal (sessions : Sessions) (id : String)
    (s : Session) (hlook : lookupA sessions id = some s)
    (hterm : s.status = SessionStatus.Complete
      ∨ ∃ e, s.status = SessionStatus.Failed e) :
    (∃ m, start_session sessions id = Except.error (RalphError.InvalidState m)) ∧
    pause_session sessions id = Except.ok
      (insertA sessions s.id { s with status := SessionStatus.Paused },
       { s with status := SessionStatus.Paused }) ∧
    stop_session sessions id = Except.ok
      (insertA sessions s.id { s with status := SessionStatus.Idle },
       { s with status := SessionStatus.Idle }) ∧
    (∀ prd, set_prd sessions id prd = Except.ok
        (insertA sessions s.id { s with prd := some prd },
         { s with prd := some prd })
      ∧ ({ s with prd := some prd } : Session).status = s.status) := by
  have hst : isStartable s.status = false := by
    rcases hterm with h | ⟨e, h⟩ <;> rw [h] <;> rfl
  have herr : start_session sessions id = Except.error (RalphError.InvalidState
      ("Cannot start session in state: " ++ s.status.debugStr)) := by
    simp [start_session, hlook, hst]
  refine ⟨⟨_, herr⟩, ?_, ?_, ?_⟩
  · simp [pause_session, hlook]
  · simp [stop_session, hlook]
  · intro prd
    exact ⟨by simp [set_prd, hlook], rfl⟩

/-- Witness for the amended C9 at a concrete Failed session. -/
theorem c9_complete_failed_not_terminal_witness :
    stop_session [("s1", demoSession (SessionStatus.Failed "boom") none)] "s1"
      = Except.ok
        (insertA [("s1", demoSession (SessionStatus.Failed "boom") none)] "s1"
          { demoSession (SessionStatus.Failed "boom") none with
              status := SessionStatus.Idle },
         { demoSession (SessionStatus.Failed "boom") none with
             status := SessionStatus.Idle }) := by
  exact (c9_complete_failed_not_terminal
    [("s1", demoSession (SessionStatus.Failed "boom") none)] "s1"
    (demoSession (SessionStatus.Failed "boom") none) (by decide)
    (Or.inr ⟨"boom", rfl⟩)).2.2.1

/-! ### Signal shape and iteration-result priority -/

theorem thresholdSignal_cases (tu : TokenUsage) (w r : Nat) :
    thresholdSignal tu w r = none ∨ thresholdSignal tu w r = some Signal.Warn
    ∨ thresholdSignal tu w r = some Signal.Rotate := by
  unfold thresholdSignal
  by_cases h1 : tu.total ≥ r
  · simp [h1]
  · by_cases h2 : tu.total ≥ w <;> simp [h1, h2]

theorem orThreshold_shape (g : Option Signal) (tu : TokenUsage) (w r : Nat)
    (hg : g = none ∨ ∃ m, g = some (Signal.Gutter m)) :
    orThreshold g tu w r = none ∨ orThreshold g tu w r = some Signal.Warn
    ∨ orThreshold g tu w r = some Signal.Rotate
    ∨ ∃ m, orThreshold g tu w r = some (Signal.Gutter m) := by
  rcases hg with h | ⟨m, h⟩
  · subst h
    rcases thresholdSignal_cases tu w r with h | h | h <;> simp [orThreshold, h]
  · subst h
    exact Or.inr (Or.inr (Or.inr ⟨m, rfl⟩))

theorem parse_signal_shape (p : StreamParser) (now : Nat) (kind : ActivityKind) :
    (parse_activity p now kind).2 = none
    ∨ (parse_activity p now kind).2 = some Signal.Warn
    ∨ (parse_activity p now kind).2 = some Signal.Rotate
    ∨ ∃ m, (parse_activity p now kind).2 = some (Signal.Gutter m) := by
  cases kind with
  | Shell cmd ec =>
      by_cases h : ec ≠ 0
      · simp only [parse_activity, if_pos h]
        apply orThreshold_shape
        split
        · exact Or.inr ⟨_, rfl⟩
        · exact Or.inl rfl
      · simp only [parse_activity, if_neg h]
        exact orThreshold_shape _ _ _ _ (Or.inl rfl)
  | Write path lines bytes =>
      simp only [parse_activity]
      apply orThreshold_shape
      split
      · exact Or.inr ⟨_, rfl⟩
      · exact Or.inl rfl
  | Read path lines bytes =>
      exact orThreshold_shape _ _ _ _ (Or.inl rfl)
  | TokenUpdate u => exact orThreshold_shape _ _ _ _ (Or.inl rfl)
  | Signal s => exact orThreshold_shape _ _ _ _ (Or.inl rfl)
  | Error m => exact orThreshold_shape _ _ _ _ (Or.inl rfl)

theorem parse_ne_complete (p : StreamParser) (now : Nat) (kind : ActivityKind) :
    (parse_activity p now kind).2 ≠ some Signal.Complete := by
  rcases parse_signal_shape p now kind with h | h | h | ⟨m, h⟩ <;> simp [h]

theorem parse_ne_storycomplete (p : StreamParser) (now : Nat) (kind : ActivityKind)
    (sid : String) :
    (parse_activity p now kind).2 ≠ some (Signal.StoryComplete sid) := by
  rcases parse_signal_shape p now kind with h | h | h | ⟨m, h⟩ <;> simp [h]

theorem sawCompleteOf_parseAll (events : List (Nat × ActivityKind)) :
    ∀ p : StreamParser, sawCompleteOf (parseAll p events).2 = false := by
  induction events with
  | nil => intro p; rfl
  | cons e rest ih =>
      intro p
      obtain ⟨now, kind⟩ := e
      rcases parse_signal_shape p now kind with h | h | h | ⟨m, h⟩ <;>
        simp [parseAll, sawCompleteOf, h] <;>
        simpa [sawCompleteOf] using ih (parse_activity p now kind).1

/-- Claim C10: `parse_activity` returns at most one signal and it is
always Warn, Rotate or Gutter — never `Signal::Complete` or
`Signal::StoryComplete` — so the `saw_complete` flag of `run_iteration`
is false after any activity stream, the `Signal::Complete` branch is
unreachable, and a successful iteration with no recorded Gutter signal
and a token total below `rotate_threshold` yields
`IterationResult::StoryComplete` via the default branch. -/
theorem c10_signals_never_complete :
    (∀ (p : StreamParser) (now : Nat) (kind : ActivityKind),
        (parse_activity p now kind).2 = none
        ∨ (parse_activity p now kind).2 = some Signal.Warn
        ∨ (parse_activity p now kind).2 = some Signal.Rotate
        ∨ ∃ m, (parse_activity p now kind).2 = some (Signal.Gutter m)) ∧
    (∀ (p : StreamParser) (events : List (Nat × ActivityKind)),
        sawCompleteOf (parseAll p events).2 = false) ∧
    (∀ (sess : Session) (events : List (Nat × ActivityKind)),
        gutterOf (parseAll (initParser sess) events).2 = none →
        ((parseAll (initParser sess) events).1).token_usage.total
            < sess.config.rotate_threshold →
        run_iteration sess events
          = (IterationResult.StoryComplete,
             ((parseAll (initParser sess) events).1).token_usage)) := by
  refine ⟨parse_signal_shape, fun p events => sawCompleteOf_parseAll events p, ?_⟩
  intro sess events hg hlt
  have hnot : ¬ (((parseAll (initParser sess) events).1).token_usage.total
      ≥ sess.config.rotate_threshold) := by omega
  simp [run_iteration, hg, hnot]

/-- Witness for C10 at a concrete stream: one successful Shell call, no
gutter, total 100 below the 80000 rotate threshold, hence StoryComplete. -/
theorem c10_signals_never_complete_witness :
    run_iteration (demoSession (SessionStatus.Running "US-001") (some demoPrd))
        [(0, ActivityKind.Shell "ls" 0)]
      = (IterationResult.StoryComplete,
         ((parseAll (initParser (demoSession (SessionStatus.Running "US-001")
             (some demoPrd))) [(0, ActivityKind.Shell "ls" 0)]).1).token_usage) := by
  exact c10_signals_never_complete.2.2
    (demoSession (SessionStatus.Running "US-001") (some demoPrd))
    [(0, ActivityKind.Shell "ls" 0)] (by decide) (by decide)

/-- Claim C2: the iteration result is decided in priority order — an
observed Gutter signal wins (the `gutter_signal` slot holds the last
gutter reason), else an accumulated token total at or above
`rotate_threshold` yields Rotate even though the subprocess exited zero
(the model's success path), else the result is StoryComplete (whether or
not a `Signal::Complete` was observed — a zero-exit subprocess with no
explicit signal defaults to StoryComplete); and the Rotate arm of
`run_loop` (the `rotateUpdate` it applies to the session) resets
`token_usage` to all-zero and increments `current_iteration` by exactly
one (no `u32` wrap can occur because the loop runs only while
`current_iteration < max_iterations`, a `u32`). -/
theorem c2_iteration_result_priority :
    (∀ (sess : Session) (events : List (Nat × ActivityKind)) (reason : String),
        gutterOf (parseAll (initParser sess) events).2 = some reason →
        run_iteration sess events
          = (IterationResult.Gutter reason,
             ((parseAll (initParser sess) events).1).token_usage)) ∧
    (∀ (sess : Session) (events : List (Nat × ActivityKind)),
        gutterOf (parseAll (initParser sess) events).2 = none →
        ((parseAll (initParser sess) events).1).token_usage.total
            ≥ sess.config.rotate_threshold →
        run_iteration sess events
          = (IterationResult.Rotate,
             ((parseAll (initParser sess) events).1).token_usage)) ∧
    (∀ (sess : Session) (events : List (Nat × ActivityKind)),
        gutterOf (parseAll (initParser sess) events).2 = none →
        ((parseAll (initParser sess) events).1).token_usage.total
            < sess.config.rotate_threshold →
        run_iteration sess events
          = (IterationResult.StoryComplete,
             ((parseAll (initParser sess) events).1).token_usage)) ∧
    (∀ s : Session, (rotateUpdate s).token_usage = TokenUsage.default) ∧
    (∀ s : Session, s.config.max_iterations < U32MOD →
        s.current_iteration < s.config.max_iterations →
        (rotateUpdate s).current_iteration = s.current_iteration + 1) := by
  refine ⟨?_, ?_, ?_, fun s => rfl, ?_⟩
  · intro sess events reason hg
    simp [run_iteration, hg]
  · intro sess events hg hge
    simp [run_iteration, hg, hge]
  · intro sess events hg hlt
    have hnot : ¬ (((parseAll (initParser sess) events).1).token_usage.total
        ≥ sess.config.rotate_threshold) := by omega
    simp [run_iteration, hg, hnot]
  · intro s hmax hcur
    have h : s.current_iteration + 1 < U32MOD := by omega
    show wrap32 (s.current_iteration + 1) = s.current_iteration + 1
    exact wrap32_eq_of_lt h

/-- Witness for C2: a Read of exactly 80000 bytes reaches
`rotate_threshold` mid-iteration, so the result is Rotate even though
the subprocess exited zero, and `rotateUpdate` resets the usage and
bumps the iteration counter from 0 to 1. -/
theorem c2_iteration_result_priority_witness :
    run_iteration (demoSession (SessionStatus.Running "US-001") (some demoPrd))
        [(0, ActivityKind.Read "big.rs" 9 80000)]
      = (IterationResult.Rotate,
         ((parseAll (initParser (demoSession (SessionStatus.Running "US-001")
             (some demoPrd))) [(0, ActivityKind.Read "big.rs" 9 80000)]).1).token_usage)
    ∧ (rotateUpdate (demoSession (SessionStatus.Running "US-001")
        (some demoPrd))).token_usage = TokenUsage.default
    ∧ (rotateUpdate (demoSession (SessionStatus.Running "US-001")
        (some demoPrd))).current_iteration
      = (demoSession (SessionStatus.Running "US-001")
          (some demoPrd)).current_iteration + 1 := by
  refine ⟨?_, c2_iteration_result_priority.2.2.2.1 _, ?_⟩
  · exact c2_iteration_result_priority.2.1
      (demoSession (SessionStatus.Running "US-001") (some demoPrd))
      [(0, ActivityKind.Read "big.rs" 9 80000)] (by decide) (by decide)
  · exact c2_iteration_result_priority.2.2.2.2
      (demoSession (SessionStatus.Running "US-001") (some demoPrd))
      (by decide) (by decide)

/-! ### Next-story selection and loop completion -/

theorem minFold_spec (f : Story → Nat) (l : List Story) :
    ∀ a b : Story,
      l.foldl
        (fun acc s =>
          match acc with
          | none => some s
          | some m => if f s < f m then some s else some m)
        (some a) = some b →
      (b = a ∧ ∀ x ∈ l, f a ≤ f x) ∨
      (∃ l1 l2, l = l1 ++ b :: l2 ∧ f b < f a
        ∧ (∀ x ∈ l1, f b < f x) ∧ (∀ x ∈ l2, f b ≤ f x)) := by
  induction l with
  | nil =>
      intro a b h
      simp only [List.foldl_nil, Option.some.injEq] at h
      left
      exact ⟨h.symm, by simp⟩
  | cons s l ih =>
      intro a b h
      rw [List.foldl_cons] at h
      have hstep : (match some a with
          | none => some s
          | some m => if f s < f m then some s else some m)
          = if f s < f a then some s else some a := rfl
      rw [hstep] at h
      by_cases hs : f s < f a
      · rw [if_pos hs] at h
        rcases ih s b h with ⟨hb, hall⟩ | ⟨l1, l2, hl, hlt, h1, h2⟩
        · right
          refine ⟨[], l, by simp [hb], by rw [hb]; exact hs, by simp, ?_⟩
          intro x hx
          rw [hb]
          exact hall x hx
        · right
          refine ⟨s :: l1, l2, by simp [hl], Nat.lt_trans hlt hs, ?_, h2⟩
          intro x hx
          rcases List.mem_cons.mp hx with rfl | hx
          · exact hlt
          · exact h1 x hx
      · rw [if_neg hs] at h
        rcases ih a b h with ⟨hb, hall⟩ | ⟨l1, l2, hl, hlt, h1, h2⟩
        · left
          refine ⟨hb, ?_⟩
          intro x hx
          rcases List.mem_cons.mp hx with rfl | hx
          · exact Nat.le_of_not_lt hs
          · exact hall x hx
        · right
          refine ⟨s :: l1, l2, by simp [hl], hlt, ?_, h2⟩
          intro x hx
          rcases List.mem_cons.mp hx with rfl | hx
          · exact Nat.lt_of_lt_of_le hlt (Nat.le_of_not_lt hs)
          · exact h1 x hx

theorem minByKeyFirst_spec (f : Story → Nat) (l : List Story) (m : Story)
    (h : minByKeyFirst f l = some m) :
    ∃ l1 l2, l = l1 ++ m :: l2
      ∧ (∀ x ∈ l1, f m < f x) ∧ (∀ x ∈ l2, f m ≤ f x) := by
  cases l with
  | nil => simp [minByKeyFirst] at h
  | cons s l =>
      have h' : l.foldl
          (fun acc s =>
            match acc with
            | none => some s
            | some m => if f s < f m then some s else some m)
          (some s) = some m := by
        simpa [minByKeyFirst, List.foldl_cons] using h
      rcases minFold_spec f l s m h' with ⟨hb, hall⟩ | ⟨l1, l2, hl, hlt, h1, h2⟩
      · refine ⟨[], l, by simp [hb], by simp, ?_⟩
        intro x hx
        rw [hb]
        exact hall x hx
      · refine ⟨s :: l1, l2, by simp [hl], ?_, h2⟩
        intro x hx
        rcases List.mem_cons.mp hx with rfl | hx
        · exact hlt
        · exact h1 x hx

theorem filter_unpassed_nil (stories : List Story)
    (h : ∀ s ∈ stories, s.passes = true) :
    stories.filter (fun s => !s.passes) = [] := by
  induction stories with
  | nil => rfl
  | cons s l ih =>
      have hs := h s (List.mem_cons_self s l)
      have hl := ih fun x hx => h x (List.mem_cons_of_mem s hx)
      simp [List.filter_cons, hs, hl]

theorem selectStory_none_of_all_passed (prd : Prd)
    (h : ∀ s ∈ prd.stories, s.passes = true) :
    selectStory (some prd) = none := by
  simp [selectStory, filter_unpassed_nil prd.stories h, minByKeyFirst]

/-- Claim C4: next-story selection picks, among the stories with
`passes == false` (the filtered list, which preserves the PRD's story
order), the first story attaining the minimum priority — everything
before it in the filtered list has strictly greater priority, everything
after it has greater-or-equal priority; and when no unpassed story
remains, the run-loop sets the status to Complete, broadcasts exactly one
`Signal::Complete` entry, and returns, whatever the remaining oracle. -/
theorem c4_next_story_selection :
    (∀ (prd : Prd) (sid : String), selectStory (some prd) = some sid →
      ∃ l1 s l2, prd.stories.filter (fun s => !s.passes) = l1 ++ s :: l2
        ∧ sid = s.id ∧ s ∈ prd.stories ∧ s.passes = false
        ∧ (∀ x ∈ l1, s.priority < x.priority)
        ∧ (∀ x ∈ l2, s.priority ≤ x.priority)) ∧
    (∀ prd : Prd, (∀ s ∈ prd.stories, s.passes = true) →
      selectStory (some prd) = none) ∧
    (∀ (sess : Session) (cur : SessionStatus)
        (events : List (Nat × ActivityKind)) (rest : LoopOracle) (prd : Prd),
        sess.prd = some prd →
        (∀ s ∈ prd.stories, s.passes = true) →
        sess.current_iteration < sess.config.max_iterations →
        isPausedOrIdle cur = false →
        run_loop sess ((cur, events) :: rest)
          = ({ sess with status := SessionStatus.Complete }, [Signal.Complete])) := by
  refine ⟨?_, selectStory_none_of_all_passed, ?_⟩
  · intro prd sid h
    simp only [selectStory, Option.bind_eq_bind, Option.some_bind,
      Option.map_eq_some'] at h
    obtain ⟨st, hmin, hid⟩ := h
    obtain ⟨l1, l2, hl, h1, h2⟩ := minByKeyFirst_spec _ _ _ hmin
    have hmem : st ∈ prd.stories.filter (fun s => !s.passes) := by
      rw [hl]
      exact List.mem_append_right _ (List.mem_cons_self _ _)
    have hmem' := List.mem_filter.mp hmem
    refine ⟨l1, st, l2, hl, hid.symm, hmem'.1, ?_, h1, h2⟩
    simpa using hmem'.2
  · intro sess cur events rest prd hprd hall hiter hpz
    have hsel : selectStory sess.prd = none := by
      rw [hprd]
      exact selectStory_none_of_all_passed prd hall
    simp [run_loop, hiter, hpz, hsel]

/-- Witness for C4: a session whose single story already passes drives
the loop straight to Complete with exactly one Complete broadcast. -/
theorem c4_next_story_selection_witness :
    run_loop
        (demoSession (SessionStatus.Running "US-001")
          (some { demoPrd with stories := [{ demoStory with passes := true }] }))
        [(SessionStatus.Running "US-001", [])]
      = ({ demoSession (SessionStatus.Running "US-001")
            (some { demoPrd with stories := [{ demoStory with passes := true }] })
            with status := SessionStatus.Complete },
         [Signal.Complete]) := by
  refine c4_next_story_selection.2.2
    (demoSession (SessionStatus.Running "US-001")
      (some { demoPrd with stories := [{ demoStory with passes := true }] }))
    (SessionStatus.Running "US-001") [] []
    { demoPrd with stories := [{ demoStory with passes := true }] }
    rfl ?_ (by decide) rfl
  intro s hs
  simp only [List.mem_singleton] at hs
  rw [hs]

/-! ### File-write thrashing detection -/

theorem parse_write_writes (p : StreamParser) (now : Nat) (path : String)
    (lines bytes : Nat) :
    ((parse_activity p now (ActivityKind.Write path lines bytes)).1).file_writes
      = insertA p.file_writes path
          ((((lookupA p.file_writes path).getD []) ++ [now]).filter
            (fun t => now - 600 < t)) := by
  simp [parse_activity]

theorem parse_write_sig_lt (p : StreamParser) (now : Nat) (path : String)
    (lines bytes : Nat)
    (h : ((((lookupA p.file_writes path).getD []) ++ [now]).filter
        (fun t => now - 600 < t)).length < p.gutter_thrash_count) :
    (parse_activity p now (ActivityKind.Write path lines bytes)).2
      = thresholdSignal (tokenStep p.token_usage (ActivityKind.Write path lines bytes))
          p.warn_threshold p.rotate_threshold := by
  have hn : ¬ (((((lookupA p.file_writes path).getD []) ++ [now]).filter
      (fun t => now - 600 < t)).length ≥ p.gutter_thrash_count) := by omega
  simp only [parse_activity]
  rw [if_neg hn]
  rfl

theorem parse_write_sig_ge (p : StreamParser) (now : Nat) (path : String)
    (lines bytes : Nat)
    (h : ((((lookupA p.file_writes path).getD []) ++ [now]).filter
        (fun t => now - 600 < t)).length ≥ p.gutter_thrash_count) :
    (parse_activity p now (ActivityKind.Write path lines bytes)).2
      = some (Signal.Gutter
          ("File thrashing detected: " ++ path ++ " ("
            ++ toString ((((lookupA p.file_writes path).getD []) ++ [now]).filter
                (fun t => now - 600 < t)).length
            ++ " writes in 10min)")) := by
  simp only [parse_activity]
  rw [if_pos h]
  rfl

theorem thrash_fires (it : Nat) (tu : TokenUsage) (warn rot : Nat) (path : String)
    (ln1 bt1 ln2 bt2 ln3 bt3 ln4 bt4 ln5 bt5 t1 t2 t3 t4 t5 : Nat)
    (h0 : 0 < t1) (h12 : t1 ≤ t2) (h23 : t2 ≤ t3) (h34 : t3 ≤ t4) (h45 : t4 ≤ t5)
    (hspan : t5 < t1 + 600) :
    (parse_activity (parse_activity (parse_activity (parse_activity (parse_activity
        (StreamParser.new it tu warn rot) t1 (ActivityKind.Write path ln1 bt1)).1
        t2 (ActivityKind.Write path ln2 bt2)).1
        t3 (ActivityKind.Write path ln3 bt3)).1
        t4 (ActivityKind.Write path ln4 bt4)).1
        t5 (ActivityKind.Write path ln5 bt5)).2
      = some (Signal.Gutter
          ("File thrashing detected: " ++ path ++ " (5 writes in 10min)")) := by
  have c11 : t1 - 600 < t1 := by omega
  have c21 : t2 - 600 < t1 := by omega
  have c22 : t2 - 600 < t2 := by omega
  have c31 : t3 - 600 < t1 := by omega
  have c32 : t3 - 600 < t2 := by omega
  have c33 : t3 - 600 < t3 := by omega
  have c41 : t4 - 600 < t1 := by omega
  have c42 : t4 - 600 < t2 := by omega
  have c43 : t4 - 600 < t3 := by omega
  have c44 : t4 - 600 < t4 := by omega
  have c51 : t5 - 600 < t1 := by omega
  have c52 : t5 - 600 < t2 := by omega
  have c53 : t5 - 600 < t3 := by omega
  have c54 : t5 - 600 < t4 := by omega
  have c55 : t5 - 600 < t5 := by omega
  have w1 : ((parse_activity (StreamParser.new it tu warn rot) t1
      (ActivityKind.Write path ln1 bt1)).1).file_writes = [(path, [t1])] := by
    rw [parse_write_writes]
    simp [StreamParser.new, lookupA, insertA, c11]
  have w2 : ((parse_activity (parse_activity (StreamParser.new it tu warn rot) t1
      (ActivityKind.Write path ln1 bt1)).1 t2
      (ActivityKind.Write path ln2 bt2)).1).file_writes = [(path, [t1, t2])] := by
    rw [parse_write_writes, w1]
    simp [lookupA, insertA, c21, c22]
  have w3 : ((parse_activity (parse_activity (parse_activity
      (StreamParser.new it tu warn rot) t1 (ActivityKind.Write path ln1 bt1)).1 t2
      (ActivityKind.Write path ln2 bt2)).1 t3
      (ActivityKind.Write path ln3 bt3)).1).file_writes = [(path, [t1, t2, t3])] := by
    rw [parse_write_writes, w2]
    simp [lookupA, insertA, c31, c32, c33]
  have w4 : ((parse_activity (parse_activity (parse_activity (parse_activity
      (StreamParser.new it tu warn rot) t1 (ActivityKind.Write path ln1 bt1)).1 t2
      (ActivityKind.Write path ln2 bt2)).1 t3
      (ActivityKind.Write path ln3 bt3)).1 t4
      (ActivityKind.Write path ln4 bt4)).1).file_writes
      = [(path, [t1, t2, t3, t4])] := by
    rw [parse_write_writes, w3]
    simp [lookupA, insertA, c41, c42, c43, c44]
  have tun1 := parse_preserves_tuning (StreamParser.new it tu warn rot) t1
      (ActivityKind.Write path ln1 bt1)
  have tun2 := parse_preserves_tuning (parse_activity
      (StreamParser.new it tu warn rot) t1 (ActivityKind.Write path ln1 bt1)).1 t2
      (ActivityKind.Write path ln2 bt2)
  have tun3 := parse_preserves_tuning (parse_activity (parse_activity
      (StreamParser.new it tu warn rot) t1 (ActivityKind.Write path ln1 bt1)).1 t2
      (ActivityKind.Write path ln2 bt2)).1 t3 (ActivityKind.Write path ln3 bt3)
  have tun4 := parse_preserves_tuning (parse_activity (parse_activity (parse_activity
      (StreamParser.new it tu warn rot) t1 (ActivityKind.Write path ln1 bt1)).1 t2
      (ActivityKind.Write path ln2 bt2)).1 t3 (ActivityKind.Write path ln3 bt3)).1 t4
      (ActivityKind.Write path ln4 bt4)
  have th4 : ((parse_activity (parse_activity (parse_activity (parse_activity
      (StreamParser.new it tu warn rot) t1 (ActivityKind.Write path ln1 bt1)).1 t2
      (ActivityKind.Write path ln2 bt2)).1 t3
      (ActivityKind.Write path ln3 bt3)).1 t4
      (ActivityKind.Write path ln4 bt4)).1).gutter_thrash_count = 5 := by
    rw [tun4.2.1, tun3.2.1, tun2.2.1, tun1.2.1]
    rfl
  have hfilt : (((lookupA ((parse_activity (parse_activity (parse_activity
      (parse_activity (StreamParser.new it tu warn rot) t1
      (ActivityKind.Write path ln1 bt1)).1 t2
      (ActivityKind.Write path ln2 bt2)).1 t3
      (ActivityKind.Write path ln3 bt3)).1 t4
      (ActivityKind.Write path ln4 bt4)).1).file_writes path).getD []) ++ [t5]).filter
      (fun t => t5 - 600 < t) = [t1, t2, t3, t4, t5] := by
    rw [w4]
    simp [lookupA, c51, c52, c53, c54, c55]
  have hge : ((((lookupA ((parse_activity (parse_activity (parse_activity
      (parse_activity (StreamParser.new it tu warn rot) t1
      (ActivityKind.Write path ln1 bt1)).1 t2
      (ActivityKind.Write path ln2 bt2)).1 t3
      (ActivityKind.Write path ln3 bt3)).1 t4
      (ActivityKind.Write path ln4 bt4)).1).file_writes path).getD []) ++ [t5]).filter
      (fun t => t5 - 600 < t)).length
      ≥ ((parse_activity (parse_activity (parse_activity (parse_activity
      (StreamParser.new it tu warn rot) t1 (ActivityKind.Write path ln1 bt1)).1 t2
      (ActivityKind.Write path ln2 bt2)).1 t3
      (ActivityKind.Write path ln3 bt3)).1 t4
      (ActivityKind.Write path ln4 bt4)).1).gutter_thrash_count := by
    rw [hfilt, th4]
    simp
  have sig5 := parse_write_sig_ge _ t5 path ln5 bt5 hge
  rw [hfilt] at sig5
  have hlen : ([t1, t2, t3, t4, t5] : List Nat).length = 5 := rfl
  rw [hlen] at sig5
  rw [sig5]
  have hlit : (" (" ++ (toString (5 : Nat) ++ " writes in 10min)") : String)
      = " (5 writes in 10min)" := by decide
  rw [String.append_assoc, String.append_assoc, hlit]

theorem thrash_not_fires (it : Nat) (tu : TokenUsage) (warn rot : Nat) (path : String)
    (ln1 bt1 ln2 bt2 ln3 bt3 ln4 bt4 ln5 bt5 t1 t2 t3 t4 t5 : Nat)
    (hspread : t1 + 600 ≤ t5) :
    (∀ m, (parse_activity (StreamParser.new it tu warn rot) t1
        (ActivityKind.Write path ln1 bt1)).2 ≠ some (Signal.Gutter m)) ∧
    (∀ m, (parse_activity (parse_activity (StreamParser.new it tu warn rot) t1
        (ActivityKind.Write path ln1 bt1)).1 t2
        (ActivityKind.Write path ln2 bt2)).2 ≠ some (Signal.Gutter m)) ∧
    (∀ m, (parse_activity (parse_activity (parse_activity
        (StreamParser.new it tu warn rot) t1 (ActivityKind.Write path ln1 bt1)).1 t2
        (ActivityKind.Write path ln2 bt2)).1 t3
        (ActivityKind.Write path ln3 bt3)).2 ≠ some (Signal.Gutter m)) ∧
    (∀ m, (parse_activity (parse_activity (parse_activity (parse_activity
        (StreamParser.new it tu warn rot) t1 (ActivityKind.Write path ln1 bt1)).1 t2
        (ActivityKind.Write path ln2 bt2)).1 t3
        (ActivityKind.Write path ln3 bt3)).1 t4
        (ActivityKind.Write path ln4 bt4)).2 ≠ some (Signal.Gutter m)) ∧
    (∀ m, (parse_activity (parse_activity (parse_activity (parse_activity
        (parse_activity (StreamParser.new it tu warn rot) t1
        (ActivityKind.Write path ln1 bt1)).1 t2
        (ActivityKind.Write path ln2 bt2)).1 t3
        (ActivityKind.Write path ln3 bt3)).1 t4
        (ActivityKind.Write path ln4 bt4)).1 t5
        (ActivityKind.Write path ln5 bt5)).2 ≠ some (Signal.Gutter m)) := by
  have hw1 : ((parse_activity (StreamParser.new it tu warn rot) t1
      (ActivityKind.Write path ln1 bt1)).1).file_writes
      = [(path, [t1].filter (fun t => t1 - 600 < t))] := by
    rw [parse_write_writes]
    simp [StreamParser.new, lookupA, insertA]
  have hs1 : List.Sublist ([t1].filter (fun t => t1 - 600 < t)) [t1] :=
    List.filter_sublist _
  have hw2 : ((parse_activity (parse_activity (StreamParser.new it tu warn rot) t1
      (ActivityKind.Write path ln1 bt1)).1 t2
      (ActivityKind.Write path ln2 bt2)).1).file_writes
      = [(path, ([t1].filter (fun t => t1 - 600 < t) ++ [t2]).filter
          (fun t => t2 - 600 < t))] := by
    rw [parse_write_writes, hw1]
    simp [lookupA, insertA]
  have hs2 : List.Sublist (([t1].filter (fun t => t1 - 600 < t) ++ [t2]).filter
      (fun t => t2 - 600 < t)) [t1, t2] := by
    refine List.Sublist.trans (List.filter_sublist _) ?_
    have := List.Sublist.append hs1 (List.Sublist.refl [t2])
    simpa using this
  have hw3 : ((parse_activity (parse_activity (parse_activity
      (StreamParser.new it tu warn rot) t1 (ActivityKind.Write path ln1 bt1)).1 t2
      (ActivityKind.Write path ln2 bt2)).1 t3
      (ActivityKind.Write path ln3 bt3)).1).file_writes
      = [(path, (([t1].filter (fun t => t1 - 600 < t) ++ [t2]).filter
          (fun t => t2 - 600 < t) ++ [t3]).filter (fun t => t3 - 600 < t))] := by
    rw [parse_write_writes, hw2]
    simp [lookupA, insertA]
  have hs3 : List.Sublist ((([t1].filter (fun t => t1 - 600 < t) ++ [t2]).filter
      (fun t => t2 - 600 < t) ++ [t3]).filter (fun t => t3 - 600 < t))
      [t1, t2, t3] := by
    refine List.Sublist.trans (List.filter_sublist _) ?_
    have := List.Sublist.append hs2 (List.Sublist.refl [t3])
    simpa using this
  have hw4 : ((parse_activity (parse_activity (parse_activity (parse_activity
      (StreamParser.new it tu warn rot) t1 (ActivityKind.Write path ln1 bt1)).1 t2
      (ActivityKind.Write path ln2 bt2)).1 t3
      (ActivityKind.Write path ln3 bt3)).1 t4
      (ActivityKind.Write path ln4 bt4)).1).file_writes
      = [(path, ((([t1].filter (fun t => t1 - 600 < t) ++ [t2]).filter
          (fun t => t2 - 600 < t) ++ [t3]).filter (fun t => t3 - 600 < t) ++ [t4]).filter
          (fun t => t4 - 600 < t))] := by
    rw [parse_write_writes, hw3]
    simp [lookupA, insertA]
  have hs4 : List.Sublist (((([t1].filter (fun t => t1 - 600 < t) ++ [t2]).filter
      (fun t => t2 - 600 < t) ++ [t3]).filter (fun t => t3 - 600 < t) ++ [t4]).filter
      (fun t => t4 - 600 < t)) [t1, t2, t3, t4] := by
    refine List.Sublist.trans (List.filter_sublist _) ?_
    have := List.Sublist.append hs3 (List.Sublist.refl [t4])
    simpa using this
  have tun1 := parse_preserves_tuning (StreamParser.new it tu warn rot) t1
      (ActivityKind.Write path ln1 bt1)
  have tun2 := parse_preserves_tuning (parse_activity
      (StreamParser.new it tu warn rot) t1 (ActivityKind.Write path ln1 bt1)).1 t2
      (ActivityKind.Write path ln2 bt2)
  have tun3 := parse_preserves_tuning (parse_activity (parse_activity
      (StreamParser.new it tu warn rot) t1 (ActivityKind.Write path ln1 bt1)).1 t2
      (ActivityKind.Write path ln2 bt2)).1 t3 (ActivityKind.Write path ln3 bt3)
  have tun4 := parse_preserves_tuning (parse_activity (parse_activity (parse_activity
      (StreamParser.new it tu warn rot) t1 (ActivityKind.Write path ln1 bt1)).1 t2
      (ActivityKind.Write path ln2 bt2)).1 t3 (ActivityKind.Write path ln3 bt3)).1 t4
      (ActivityKind.Write path ln4 bt4)
  have th1 : (StreamParser.new it tu warn rot).gutter_thrash_count = 5 := rfl
  have th2 : ((parse_activity (StreamParser.new it tu warn rot) t1
      (ActivityKind.Write path ln1 bt1)).1).gutter_thrash_count = 5 := by
    rw [tun1.2.1]
    rfl
  have th3 : ((parse_activity (parse_activity (StreamParser.new it tu warn rot) t1
      (ActivityKind.Write path ln1 bt1)).1 t2
      (ActivityKind.Write path ln2 bt2)).1).gutter_thrash_count = 5 := by
    rw [tun2.2.1, th2]
  have th4 : ((parse_activity (parse_activity (parse_activity
      (StreamParser.new it tu warn rot) t1 (ActivityKind.Write path ln1 bt1)).1 t2
      (ActivityKind.Write path ln2 bt2)).1 t3
      (ActivityKind.Write path ln3 bt3)).1).gutter_thrash_count = 5 := by
    rw [tun3.2.1, th3]
  have th5 : ((parse_activity (parse_activity (parse_activity (parse_activity
      (StreamParser.new it tu warn rot) t1 (ActivityKind.Write path ln1 bt1)).1 t2
      (ActivityKind.Write path ln2 bt2)).1 t3
      (ActivityKind.Write path ln3 bt3)).1 t4
      (ActivityKind.Write path ln4 bt4)).1).gutter_thrash_count = 5 := by
    rw [tun4.2.1, th4]
  have hb1 : (((lookupA (StreamParser.new it tu warn rot).file_writes path).getD []
      ++ [t1]).filter (fun t => t1 - 600 < t)).length
      < (StreamParser.new it tu warn rot).gutter_thrash_count := by
    have ha := List.length_filter_le (fun t => decide (t1 - 600 < t))
      ((lookupA (StreamParser.new it tu warn rot).file_writes path).getD [] ++ [t1])
    have hb : ((lookupA (StreamParser.new it tu warn rot).file_writes path).getD []
        ++ [t1]).length = 1 := by
      simp [StreamParser.new, lookupA]
    rw [th1]
    omega
  have hb2 : (((lookupA ((parse_activity (StreamParser.new it tu warn rot) t1
      (ActivityKind.Write path ln1 bt1)).1).file_writes path).getD []
      ++ [t2]).filter (fun t => t2 - 600 < t)).length
      < ((parse_activity (StreamParser.new it tu warn rot) t1
          (ActivityKind.Write path ln1 bt1)).1).gutter_thrash_count := by
    have ha := List.length_filter_le (fun t => decide (t2 - 600 < t))
      ((lookupA ((parse_activity (StreamParser.new it tu warn rot) t1
        (ActivityKind.Write path ln1 bt1)).1).file_writes path).getD [] ++ [t2])
    have hlen1 : ([t1].filter (fun t => t1 - 600 < t)).length ≤ 1 := by
      have := List.Sublist.length_le hs1
      simpa using this
    have hb : ((lookupA ((parse_activity (StreamParser.new it tu warn rot) t1
        (ActivityKind.Write path ln1 bt1)).1).file_writes path).getD []
        ++ [t2]).length ≤ 2 := by
      rw [hw1]
      have hlk : lookupA [(path, [t1].filter (fun t => t1 - 600 < t))] path
          = some ([t1].filter (fun t => t1 - 600 < t)) := by simp [lookupA]
      rw [hlk]
      simp only [Option.getD_some, List.length_append, List.length_singleton]
      omega
    rw [th2]
    omega
  have hb3 : (((lookupA ((parse_activity (parse_activity
      (StreamParser.new it tu warn rot) t1 (ActivityKind.Write path ln1 bt1)).1 t2
      (ActivityKind.Write path ln2 bt2)).1).file_writes path).getD []
      ++ [t3]).filter (fun t => t3 - 600 < t)).length
      < ((parse_activity (parse_activity (StreamParser.new it tu warn rot) t1
          (ActivityKind.Write path ln1 bt1)).1 t2
          (ActivityKind.Write path ln2 bt2)).1).gutter_thrash_count := by
    have ha := List.length_filter_le (fun t => decide (t3 - 600 < t))
      ((lookupA ((parse_activity (parse_activity (StreamParser.new it tu warn rot) t1
        (ActivityKind.Write path ln1 bt1)).1 t2
        (ActivityKind.Write path ln2 bt2)).1).file_writes path).getD [] ++ [t3])
    have hlen2 : (([t1].filter (fun t => t1 - 600 < t) ++ [t2]).filter
        (fun t => t2 - 600 < t)).length ≤ 2 := by
      have := List.Sublist.length_le hs2
      simpa using this
    have hb : ((lookupA ((parse_activity (parse_activity
        (StreamParser.new it tu warn rot) t1 (ActivityKind.Write path ln1 bt1)).1 t2
        (ActivityKind.Write path ln2 bt2)).1).file_writes path).getD []
        ++ [t3]).length ≤ 3 := by
      rw [hw2]
      have hlk : lookupA [(path, ([t1].filter (fun t => t1 - 600 < t) ++ [t2]).filter
          (fun t => t2 - 600 < t))] path
          = some (([t1].filter (fun t => t1 - 600 < t) ++ [t2]).filter
            (fun t => t2 - 600 < t)) := by simp [lookupA]
      rw [hlk]
      simp only [Option.getD_some, List.length_append, List.length_singleton]
      omega
    rw [th3]
    omega
  have hb4 : (((lookupA ((parse_activity (parse_activity (parse_activity
      (StreamParser.new it tu warn rot) t1 (ActivityKind.Write path ln1 bt1)).1 t2
      (ActivityKind.Write path ln2 bt2)).1 t3
      (ActivityKind.Write path ln3 bt3)).1).file_writes path).getD []
      ++ [t4]).filter (fun t => t4 - 600 < t)).length
      < ((parse_activity (parse_activity (parse_activity
          (StreamParser.new it tu warn rot) t1 (ActivityKind.Write path ln1 bt1)).1 t2
          (ActivityKind.Write path ln2 bt2)).1 t3
          (ActivityKind.Write path ln3 bt3)).1).gutter_thrash_count := by
    have ha := List.length_filter_le (fun t => decide (t4 - 600 < t))
      ((lookupA ((parse_activity (parse_activity (parse_activity
        (StreamParser.new it tu warn rot) t1 (ActivityKind.Write path ln1 bt1)).1 t2
        (ActivityKind.Write path ln2 bt2)).1 t3
        (ActivityKind.Write path ln3 bt3)).1).file_writes path).getD [] ++ [t4])
    have hlen3 : ((([t1].filter (fun t => t1 - 600 < t) ++ [t2]).filter
        (fun t => t2 - 600 < t) ++ [t3]).filter (fun t => t3 - 600 < t)).length
        ≤ 3 := by
      have := List.Sublist.length_le hs3
      simpa using this
    have hb : ((lookupA ((parse_activity (parse_activity (parse_activity
        (StreamParser.new it tu warn rot) t1 (ActivityKind.Write path ln1 bt1)).1 t2
        (ActivityKind.Write path ln2 bt2)).1 t3
        (ActivityKind.Write path ln3 bt3)).1).file_writes path).getD []
        ++ [t4]).length ≤ 4 := by
      rw [hw3]
      have hlk : lookupA [(path, (([t1].filter (fun t => t1 - 600 < t) ++ [t2]).filter
          (fun t => t2 - 600 < t) ++ [t3]).filter (fun t => t3 - 600 < t))] path
          = some ((([t1].filter (fun t => t1 - 600 < t) ++ [t2]).filter
            (fun t => t2 - 600 < t) ++ [t3]).filter (fun t => t3 - 600 < t)) := by
        simp [lookupA]
      rw [hlk]
      simp only [Option.getD_some, List.length_append, List.length_singleton]
      omega
    rw [th4]
    omega
  have hf5 : ¬ (t5 - 600 < t1) := by omega
  have hb5 : (((lookupA ((parse_activity (parse_activity (parse_activity
      (parse_activity (StreamParser.new it tu warn rot) t1
      (ActivityKind.Write path ln1 bt1)).1 t2
      (ActivityKind.Write path ln2 bt2)).1 t3
      (ActivityKind.Write path ln3 bt3)).1 t4
      (ActivityKind.Write path ln4 bt4)).1).file_writes path).getD []
      ++ [t5]).filter (fun t => t5 - 600 < t)).length
      < ((parse_activity (parse_activity (parse_activity (parse_activity
          (StreamParser.new it tu warn rot) t1 (ActivityKind.Write path ln1 bt1)).1 t2
          (ActivityKind.Write path ln2 bt2)).1 t3
          (ActivityKind.Write path ln3 bt3)).1 t4
          (ActivityKind.Write path ln4 bt4)).1).gutter_thrash_count := by
    rw [hw4, th5]
    have hsub : List.Sublist ((((([t1].filter (fun t => t1 - 600 < t) ++ [t2]).filter
        (fun t => t2 - 600 < t) ++ [t3]).filter (fun t => t3 - 600 < t) ++ [t4]).filter
        (fun t => t4 - 600 < t) ++ [t5]).filter (fun t => t5 - 600 < t))
        ([t1, t2, t3, t4, t5].filter (fun t => t5 - 600 < t)) := by
      apply List.Sublist.filter
      have := List.Sublist.append hs4 (List.Sublist.refl [t5])
      simpa using this
    have hlen5 : ([t1, t2, t3, t4, t5].filter (fun t => t5 - 600 < t)).length ≤ 4 := by
      have heq : [t1, t2, t3, t4, t5].filter (fun t => t5 - 600 < t)
          = [t2, t3, t4, t5].filter (fun t => t5 - 600 < t) := by
        simp [List.filter_cons, hf5]
      rw [heq]
      have := List.length_filter_le (fun t => decide (t5 - 600 < t)) [t2, t3, t4, t5]
      simpa using this
    have hlen := List.Sublist.length_le hsub
    have hlk : lookupA [(path, ((([t1].filter (fun t => t1 - 600 < t) ++ [t2]).filter
        (fun t => t2 - 600 < t) ++ [t3]).filter (fun t => t3 - 600 < t) ++ [t4]).filter
        (fun t => t4 - 600 < t))] path
        = some (((([t1].filter (fun t => t1 - 600 < t) ++ [t2]).filter
          (fun t => t2 - 600 < t) ++ [t3]).filter (fun t => t3 - 600 < t) ++ [t4]).filter
          (fun t => t4 - 600 < t)) := by simp [lookupA]
    rw [hlk]
    simp only [Option.getD_some]
    omega
  have sig1 := parse_write_sig_lt (StreamParser.new it tu warn rot) t1 path ln1 bt1 hb1
  have sig2 := parse_write_sig_lt _ t2 path ln2 bt2 hb2
  have sig3 := parse_write_sig_lt _ t3 path ln3 bt3 hb3
  have sig4 := parse_write_sig_lt _ t4 path ln4 bt4 hb4
  have sig5 := parse_write_sig_lt _ t5 path ln5 bt5 hb5
  refine ⟨?_, ?_, ?_, ?_, ?_⟩ <;> intro m
  · rw [sig1]; exact thresholdSignal_not_gutter _ _ _ m
  · rw [sig2]; exact thresholdSignal_not_gutter _ _ _ m
  · rw [sig3]; exact thresholdSignal_not_gutter _ _ _ m
  · rw [sig4]; exact thresholdSignal_not_gutter _ _ _ m
  · rw [sig5]; exact thresholdSignal_not_gutter _ _ _ m

/-- Claim C7: with the default `thrash_count = 5` of a fresh
`StreamParser`, five Write activities to one path whose timestamps (the
`now()` values the parser records, nondecreasing) span strictly less
than the 10-minute window make the fifth `parse_activity` call return a
Gutter signal citing the path and the window count 5; and if the five
writes are spread so that `t1 + 600 ≤ t5` — hence no trailing 10-minute
window `(now-600, now]` ever holds five of them — none of the five calls
emits a Gutter signal.  (At exactly `t5 = t1 + 600` the pruning
`retain(t > now - 600)` is strict, so the window already misses the
first write.) -/
theorem c7_write_thrash_window :
    (∀ (it : Nat) (tu : TokenUsage) (warn rot : Nat) (path : String)
        (ln1 bt1 ln2 bt2 ln3 bt3 ln4 bt4 ln5 bt5 t1 t2 t3 t4 t5 : Nat),
        0 < t1 → t1 ≤ t2 → t2 ≤ t3 → t3 ≤ t4 → t4 ≤ t5 → t5 < t1 + 600 →
        (parse_activity (parse_activity (parse_activity (parse_activity
            (parse_activity (StreamParser.new it tu warn rot) t1
            (ActivityKind.Write path ln1 bt1)).1 t2
            (ActivityKind.Write path ln2 bt2)).1 t3
            (ActivityKind.Write path ln3 bt3)).1 t4
            (ActivityKind.Write path ln4 bt4)).1 t5
            (ActivityKind.Write path ln5 bt5)).2
          = some (Signal.Gutter
              ("File thrashing detected: " ++ path ++ " (5 writes in 10min)"))) ∧
    (∀ (it : Nat) (tu : TokenUsage) (warn rot : Nat) (path : String)
        (ln1 bt1 ln2 bt2 ln3 bt3 ln4 bt4 ln5 bt5 t1 t2 t3 t4 t5 : Nat),
        t1 + 600 ≤ t5 →
        (∀ m, (parse_activity (StreamParser.new it tu warn rot) t1
            (ActivityKind.Write path ln1 bt1)).2 ≠ some (Signal.Gutter m)) ∧
        (∀ m, (parse_activity (parse_activity (StreamParser.new it tu warn rot) t1
            (ActivityKind.Write path ln1 bt1)).1 t2
            (ActivityKind.Write path ln2 bt2)).2 ≠ some (Signal.Gutter m)) ∧
        (∀ m, (parse_activity (parse_activity (parse_activity
            (StreamParser.new it tu warn rot) t1 (ActivityKind.Write path ln1 bt1)).1
            t2 (ActivityKind.Write path ln2 bt2)).1 t3
            (ActivityKind.Write path ln3 bt3)).2 ≠ some (Signal.Gutter m)) ∧
        (∀ m, (parse_activity (parse_activity (parse_activity (parse_activity
            (StreamParser.new it tu warn rot) t1 (ActivityKind.Write path ln1 bt1)).1
            t2 (ActivityKind.Write path ln2 bt2)).1 t3
            (ActivityKind.Write path ln3 bt3)).1 t4
            (ActivityKind.Write path ln4 bt4)).2 ≠ some (Signal.Gutter m)) ∧
        (∀ m, (parse_activity (parse_activity (parse_activity (parse_activity
            (parse_activity (StreamParser.new it tu warn rot) t1
            (ActivityKind.Write path ln1 bt1)).1 t2
            (ActivityKind.Write path ln2 bt2)).1 t3
            (ActivityKind.Write path ln3 bt3)).1 t4
            (ActivityKind.Write path ln4 bt4)).1 t5
            (ActivityKind.Write path ln5 bt5)).2 ≠ some (Signal.Gutter m))) := by
  constructor
  · intro it tu warn rot path ln1 bt1 ln2 bt2 ln3 bt3 ln4 bt4 ln5 bt5 t1 t2 t3 t4 t5
      h0 h12 h23 h34 h45 hspan
    exact thrash_fires it tu warn rot path ln1 bt1 ln2 bt2 ln3 bt3 ln4 bt4 ln5 bt5
      t1 t2 t3 t4 t5 h0 h12 h23 h34 h45 hspan
  · intro it tu warn rot path ln1 bt1 ln2 bt2 ln3 bt3 ln4 bt4 ln5 bt5 t1 t2 t3 t4 t5
      hspread
    exact thrash_not_fires it tu warn rot path ln1 bt1 ln2 bt2 ln3 bt3 ln4 bt4 ln5 bt5
      t1 t2 t3 t4 t5 hspread

/-- Witness for C7: five writes to "f.rs" at seconds 1..5 trigger the
thrash Gutter on the fifth call, while the same five writes at seconds
0, 150, 300, 450, 600 never produce that Gutter message. -/
theorem c7_write_thrash_window_witness :
    (parse_activity (parse_activity (parse_activity (parse_activity
        (parse_activity (StreamParser.new 0 TokenUsage.default 70000 80000) 1
        (ActivityKind.Write "f.rs" 1 10)).1 2
        (ActivityKind.Write "f.rs" 1 10)).1 3
        (ActivityKind.Write "f.rs" 1 10)).1 4
        (ActivityKind.Write "f.rs" 1 10)).1 5
        (ActivityKind.Write "f.rs" 1 10)).2
      = some (Signal.Gutter
          ("File thrashing detected: " ++ "f.rs" ++ " (5 writes in 10min)"))
    ∧ (parse_activity (parse_activity (parse_activity (parse_activity
        (parse_activity (StreamParser.new 0 TokenUsage.default 70000 80000) 0
        (ActivityKind.Write "f.rs" 1 10)).1 150
        (ActivityKind.Write "f.rs" 1 10)).1 300
        (ActivityKind.Write "f.rs" 1 10)).1 450
        (ActivityKind.Write "f.rs" 1 10)).1 600
        (ActivityKind.Write "f.rs" 1 10)).2
      ≠ some (Signal.Gutter
          ("File thrashing detected: " ++ "f.rs" ++ " (5 writes in 10min)")) := by
  constructor
  · exact c7_write_thrash_window.1 0 TokenUsage.default 70000 80000 "f.rs"
      1 10 1 10 1 10 1 10 1 10 1 2 3 4 5
      (by decide) (by decide) (by decide) (by decide) (by decide) (by decide)
  · exact (c7_write_thrash_window.2 0 TokenUsage.default 70000 80000 "f.rs"
      1 10 1 10 1 10 1 10 1 10 0 150 300 450 600 (by decide)).2.2.2.2
      ("File thrashing detected: " ++ "f.rs" ++ " (5 writes in 10min)")

end Ralph
